import Mathlib

/-!
Shallow embedding of the binance-trader-bot repository's reconciliation
engine: the Order / Trade / BotState data model (models/order.go,
models/trade.go, models/bot_state.go), the price calculator
(utils/price_calculator.go), and the per-cycle engine logic
(services/trading_strategy.go, services/state_manager.go,
repositories/trade_repository.go).

Conventions of the embedding:
- Go float64 values (prices, quantities, balances, profits) are embedded
  as exact rationals (ℚ).
- Go time.Time values are embedded as abstract natural-number ticks; every
  operation that reads the wall clock takes an explicit `now : ℕ` argument.
  `OrderIntervalMinutes` is expressed in the same abstract tick unit.
- External collaborators (exchange gateway, SQL store) are embedded as an
  oracle record `ExchangeEnv`: a fallible call returns `Option`, with
  `none` standing for the error branch of the Go code.
- `logger.Fatalf` (which calls os.Exit) is embedded as the dedicated
  terminal outcome `CycleResult.fatalSave`.
-/

namespace BinanceTraderBot

/-- Order side, models/order.go `OrderType` (BUY | SELL). -/
inductive OrderType where
  | BUY
  | SELL
deriving DecidableEq, Repr

/-- Exchange order status, models/order.go `OrderStatus`. -/
inductive OrderStatus where
  | NEW
  | PARTIALLY_FILLED
  | FILLED
  | CANCELED
  | PENDING_CANCEL
  | REJECTED
  | EXPIRED
deriving DecidableEq, Repr

/-- One exchange order, models/order.go `Order`. -/
structure Order where
  id : Int
  binanceID : Int
  symbol : String
  type : OrderType
  price : ℚ
  quantity : ℚ
  quoteQty : ℚ
  status : OrderStatus
  isTest : Bool
  placedAt : ℕ
  executedAt : Option ℕ
  lastUpdatedAt : ℕ
deriving DecidableEq, Repr

/-- models/order.go `Order.UpdateStatus`: unconditionally overwrites the
status and the last-updated timestamp; entering FILLED or
PARTIALLY_FILLED sets the execution timestamp, entering CANCELED,
REJECTED or EXPIRED clears it. -/
def Order.UpdateStatus (o : Order) (newStatus : OrderStatus) (now : ℕ) : Order :=
  let o1 := { o with status := newStatus, lastUpdatedAt := now }
  if newStatus = .FILLED ∨ newStatus = .PARTIALLY_FILLED then
    { o1 with executedAt := some now }
  else if newStatus = .CANCELED ∨ newStatus = .REJECTED ∨ newStatus = .EXPIRED then
    { o1 with executedAt := none }
  else
    o1

/-- Trade status, models/trade.go `TradeStatus`. -/
inductive TradeStatus where
  | OPEN
  | SOLD
  | CANCELED
  | ERROR
deriving DecidableEq, Repr

/-- A buy-then-sell position, models/trade.go `Trade`. -/
structure Trade where
  id : Int
  buyOrderID : Int
  sellOrderID : Option Int
  symbol : String
  buyPrice : ℚ
  buyQuantity : ℚ
  sellPriceTarget : ℚ
  actualSellPrice : Option ℚ
  status : TradeStatus
  profitUSDT : Option ℚ
  openedAt : ℕ
  closedAt : Option ℕ
  lastStatusUpdate : ℕ
deriving DecidableEq, Repr

/-- models/trade.go `NewTrade`. -/
def NewTrade (buyOrderID : Int) (symbol : String)
    (buyPrice buyQuantity sellPriceTarget : ℚ) (now : ℕ) : Trade :=
  { id := 0
    buyOrderID := buyOrderID
    sellOrderID := none
    symbol := symbol
    buyPrice := buyPrice
    buyQuantity := buyQuantity
    sellPriceTarget := sellPriceTarget
    actualSellPrice := none
    status := .OPEN
    profitUSDT := none
    openedAt := now
    closedAt := none
    lastStatusUpdate := now }

/-- models/trade.go `Trade.MarkAsSold`: unconditionally sets status SOLD,
records the actual sell price, and recomputes
`profit = (actualSellPrice - buyPrice) * buyQuantity`. -/
def Trade.MarkAsSold (t : Trade) (actualSellPrice : ℚ) (now : ℕ) : Trade :=
  { t with
    status := .SOLD
    actualSellPrice := some actualSellPrice
    profitUSDT := some ((actualSellPrice - t.buyPrice) * t.buyQuantity)
    closedAt := some now
    lastStatusUpdate := now }

/-- models/trade.go `Trade.MarkAsCanceled`. -/
def Trade.MarkAsCanceled (t : Trade) (now : ℕ) : Trade :=
  { t with status := .CANCELED, closedAt := some now, lastStatusUpdate := now }

/-- models/trade.go `Trade.SetSellOrder`: unconditionally stores the sell
order id (there is no already-attached guard in the source). -/
def Trade.SetSellOrder (t : Trade) (sellOrderID : Int) : Trade :=
  { t with sellOrderID := some sellOrderID }

/-- Persistent bot progress, models/bot_state.go `BotState`. -/
structure BotState where
  id : Int
  initialUSDTInvestment : ℚ
  currentUSDTBalance : ℚ
  currentBTCBalance : ℚ
  totalUSDTInvested : ℚ
  totalUSDTProfit : ℚ
  initialBuyOrdersPlacedCount : Int
  lastInitialBuyOrderPlacedAt : Option ℕ
  isInitialBuyingComplete : Bool
  lastBotRunTimestamp : ℕ
  createdAt : ℕ
  updatedAt : ℕ
deriving DecidableEq, Repr

/-- models/bot_state.go `NewBotState`. -/
def NewBotState (initialUSDT : ℚ) (now : ℕ) : BotState :=
  { id := 0
    initialUSDTInvestment := initialUSDT
    currentUSDTBalance := initialUSDT
    currentBTCBalance := 0
    totalUSDTInvested := 0
    totalUSDTProfit := 0
    initialBuyOrdersPlacedCount := 0
    lastInitialBuyOrderPlacedAt := none
    isInitialBuyingComplete := false
    lastBotRunTimestamp := now
    createdAt := now
    updatedAt := now }

/-- models/bot_state.go `BotState.UpdateBalances`. -/
def BotState.UpdateBalances (bs : BotState) (usdt btc : ℚ) (now : ℕ) : BotState :=
  { bs with currentUSDTBalance := usdt, currentBTCBalance := btc, updatedAt := now }

/-- models/bot_state.go `BotState.IncrementInitialBuyOrdersCount`:
increments the counter, stamps the last-initial-buy time, and flips the
completion flag once the counter reaches 10. -/
def BotState.IncrementInitialBuyOrdersCount (bs : BotState) (now : ℕ) : BotState :=
  let c := bs.initialBuyOrdersPlacedCount + 1
  { bs with
    initialBuyOrdersPlacedCount := c
    lastInitialBuyOrderPlacedAt := some now
    isInitialBuyingComplete := if 10 ≤ c then true else bs.isInitialBuyingComplete
    updatedAt := now }

/-- models/bot_state.go `BotState.UpdateInvestedAndProfit`. -/
def BotState.UpdateInvestedAndProfit (bs : BotState) (usdtInvested usdtProfit : ℚ)
    (now : ℕ) : BotState :=
  { bs with
    totalUSDTInvested := bs.totalUSDTInvested + usdtInvested
    totalUSDTProfit := bs.totalUSDTProfit + usdtProfit
    updatedAt := now }

/-- models/bot_state.go `BotState.SetInitialBuyingComplete`. -/
def BotState.SetInitialBuyingComplete (bs : BotState) (now : ℕ) : BotState :=
  { bs with isInitialBuyingComplete := true, updatedAt := now }

/-- models/bot_state.go `BotState.UpdateLastBotRunTimestamp`. -/
def BotState.UpdateLastBotRunTimestamp (bs : BotState) (now : ℕ) : BotState :=
  { bs with lastBotRunTimestamp := now, updatedAt := now }

/-- The mutating BotState methods of models/bot_state.go, as one
operation type, used to state properties that hold across all of them. -/
inductive BotStateOp where
  | updateBalances (usdt btc : ℚ)
  | incrementInitialBuyOrdersCount
  | updateInvestedAndProfit (usdtInvested usdtProfit : ℚ)
  | setInitialBuyingComplete
  | updateLastBotRunTimestamp
deriving Repr

/-- Dispatch a `BotStateOp` to the corresponding models/bot_state.go method. -/
def BotState.applyOp (bs : BotState) (now : ℕ) : BotStateOp → BotState
  | .updateBalances usdt btc => bs.UpdateBalances usdt btc now
  | .incrementInitialBuyOrdersCount => bs.IncrementInitialBuyOrdersCount now
  | .updateInvestedAndProfit inv prof => bs.UpdateInvestedAndProfit inv prof now
  | .setInitialBuyingComplete => bs.SetInitialBuyingComplete now
  | .updateLastBotRunTimestamp => bs.UpdateLastBotRunTimestamp now

/-- utils/price_calculator.go `CalculateBuyPrice`: reduces the current
price by the given percentage; a negative percentage is first negated. -/
def CalculateBuyPrice (currentPrice percentage : ℚ) : ℚ :=
  let p := if percentage < 0 then -percentage else percentage
  currentPrice * (1 - p / 100)

/-- utils/price_calculator.go `CalculateSellPrice`: increases the base
price by the given profit percentage; a negative percentage is first
negated. -/
def CalculateSellPrice (basePrice profitPercentage : ℚ) : ℚ :=
  let p := if profitPercentage < 0 then -profitPercentage else profitPercentage
  basePrice * (1 + p / 100)

/-- The trading parameters of config/config.go `Config` that the engine
reads. `maxOpenTrades` is referenced by services/trading_strategy.go as
`config.MaxOpenTrades`. -/
structure Config where
  initialUSDT : ℚ
  orderAmount : ℚ
  symbol : String
  initialBuyPercentage : ℚ
  orderIntervalMinutes : ℕ
  buyPercentages : List ℚ
  sellProfitPercentage : ℚ
  maxOpenTrades : ℕ
deriving Repr

/-- Oracle record for the engine's external collaborators: the Binance
gateway (services/binance_service.go) and the SQL store
(repositories/trade_repository.go via services/state_manager.go).
A fallible call returns `Option`; `none` is the Go error branch. -/
structure ExchangeEnv where
  getUSDTBalance : Option ℚ
  getBTCBalance : Option ℚ
  getCurrentPrice : Option ℚ
  placeLimitOrder : OrderType → ℚ → ℚ → Option Order
  listOpenOrders : Option (List Order)
  db : List Trade
  getOrder : Int → Option Order
  saveBotStateOk : Bool

/-- repositories/trade_repository.go `GetTradesByStatus`: the rows of the
trades table whose stored status matches. -/
def GetTradesByStatus (db : List Trade) (status : TradeStatus) : List Trade :=
  db.filter (fun t => decide (t.status = status))

/-- services/state_manager.go `GetOpenTrades`: trades whose stored status
is OPEN. -/
def GetOpenTrades (db : List Trade) : List Trade :=
  GetTradesByStatus db .OPEN

/-- Outcome of processing one trade in
services/trading_strategy.go `checkAndPlaceSellOrders`:
the possibly-updated trade, the sell `PlaceLimitOrder` request issued (if
any), the sell order the gateway returned (if placement succeeded), and
the profit folded into BotState (if the trade was marked SOLD). -/
structure SellStepResult where
  trade : Trade
  sellRequest : Option (OrderType × ℚ × ℚ)
  placedSellOrder : Option Order
  profitAdded : Option ℚ
deriving DecidableEq, Repr

/-- The body of the per-trade loop of
services/trading_strategy.go `checkAndPlaceSellOrders` (lines 192-259):
re-fetch the buy order (skip on error or when not FILLED); if no sell
order is attached, place one at
`CalculateSellPrice buyOrder.price sellProfitPercentage` for
`buyOrder.quantity` and attach its id; otherwise re-fetch the sell order
and, when it is FILLED, mark the trade SOLD at the sell order's price and
fold the trade's profit into BotState. -/
def checkAndPlaceSellOrdersStep (env : ExchangeEnv) (cfg : Config) (now : ℕ)
    (trade : Trade) : SellStepResult :=
  match env.getOrder trade.buyOrderID with
  | none => ⟨trade, none, none, none⟩
  | some buyOrder =>
    if buyOrder.status ≠ .FILLED then
      ⟨trade, none, none, none⟩
    else
      match trade.sellOrderID with
      | none =>
        let sellPrice := CalculateSellPrice buyOrder.price cfg.sellProfitPercentage
        let quantityToSell := buyOrder.quantity
        match env.placeLimitOrder .SELL sellPrice quantityToSell with
        | none => ⟨trade, some (.SELL, sellPrice, quantityToSell), none, none⟩
        | some sellOrder =>
          ⟨trade.SetSellOrder sellOrder.binanceID,
            some (.SELL, sellPrice, quantityToSell), some sellOrder, none⟩
      | some sid =>
        match env.getOrder sid with
        | none => ⟨trade, none, none, none⟩
        | some sellOrder =>
          if sellOrder.status = .FILLED then
            let sold := trade.MarkAsSold sellOrder.price now
            ⟨sold, none, none, sold.profitUSDT⟩
          else
            ⟨trade, none, none, none⟩

/-- services/trading_strategy.go `checkAndPlaceSellOrders`: loop the step
over the stored OPEN trades, folding each realized profit into BotState
via `UpdateInvestedAndProfit 0 profit`. -/
def checkAndPlaceSellOrders (env : ExchangeEnv) (cfg : Config) (now : ℕ)
    (bs : BotState) : BotState × List SellStepResult :=
  (GetOpenTrades env.db).foldl
    (fun acc trade =>
      let r := checkAndPlaceSellOrdersStep env cfg now trade
      let bs1 := match r.profitAdded with
        | some p => acc.1.UpdateInvestedAndProfit 0 p now
        | none => acc.1
      (bs1, acc.2 ++ [r]))
    (bs, [])

/-- Outcome of a buy-placement routine: the updated BotState, the buy
`PlaceLimitOrder` request issued (if the routine got that far), the order
the gateway returned, and whether the routine returned a Go error. -/
structure BuyStepResult where
  botState : BotState
  buyRequest : Option (OrderType × ℚ × ℚ)
  placedOrder : Option Order
  errored : Bool
deriving Repr

/-- services/trading_strategy.go `placeInitialBuyOrders`: once the count
reaches 10, flip the completion flag and place nothing; otherwise pace by
the configured interval, wait for funds when the balance is short, and
else place a buy at `CalculateBuyPrice currentPrice initialBuyPercentage`
for `orderAmount / buyPrice`, increment the count and optimistically
decrement the tracked balance. -/
def placeInitialBuyOrders (env : ExchangeEnv) (cfg : Config) (now : ℕ)
    (currentPrice : ℚ) (bs : BotState) : BuyStepResult :=
  if 10 ≤ bs.initialBuyOrdersPlacedCount then
    ⟨bs.SetInitialBuyingComplete now, none, none, false⟩
  else if (match bs.lastInitialBuyOrderPlacedAt with
           | some last => decide (now < last + cfg.orderIntervalMinutes)
           | none => false) then
    ⟨bs, none, none, false⟩
  else if bs.currentUSDTBalance < cfg.orderAmount then
    ⟨bs, none, none, false⟩
  else
    let buyPrice := CalculateBuyPrice currentPrice cfg.initialBuyPercentage
    let quantity := cfg.orderAmount / buyPrice
    match env.placeLimitOrder .BUY buyPrice quantity with
    | none => ⟨bs, some (.BUY, buyPrice, quantity), none, true⟩
    | some order =>
      let bs1 := bs.IncrementInitialBuyOrdersCount now
      let bs2 := bs1.UpdateBalances (bs1.currentUSDTBalance - cfg.orderAmount)
        bs1.currentBTCBalance now
      ⟨bs2, some (.BUY, buyPrice, quantity), some order, false⟩

/-- services/trading_strategy.go `placeAdditionalBuyOrders`: skip when
funds are short or the open-trade ceiling is reached; else, when the
initial phase is complete and funds suffice, place one buy at the first
configured drop percentage below the current price. -/
def placeAdditionalBuyOrders (env : ExchangeEnv) (cfg : Config) (now : ℕ)
    (currentPrice : ℚ) (bs : BotState) : BuyStepResult :=
  if bs.currentUSDTBalance < cfg.orderAmount then
    ⟨bs, none, none, false⟩
  else if cfg.maxOpenTrades ≤ (GetOpenTrades env.db).length then
    ⟨bs, none, none, false⟩
  else if bs.isInitialBuyingComplete && decide (cfg.orderAmount ≤ bs.currentUSDTBalance) then
    match cfg.buyPercentages with
    | [] => ⟨bs, none, none, false⟩
    | chosenPercentage :: _ =>
      let potentialBuyPrice := CalculateBuyPrice currentPrice chosenPercentage
      let quantity := cfg.orderAmount / potentialBuyPrice
      match env.placeLimitOrder .BUY potentialBuyPrice quantity with
      | none => ⟨bs, some (.BUY, potentialBuyPrice, quantity), none, true⟩
      | some order =>
        ⟨bs.UpdateBalances (bs.currentUSDTBalance - cfg.orderAmount)
          bs.currentBTCBalance now,
          some (.BUY, potentialBuyPrice, quantity), some order, false⟩
  else
    ⟨bs, none, none, false⟩

/-- The per-order update of services/trading_strategy.go
`manageOpenOrders` (lines 287-295): the call to `Order.UpdateStatus` is
guarded by `localOrder.Status != newStatus`, so an unchanged status is a
no-op. This is the spec's `applyStatusUpdate`. -/
def applyStatusUpdate (o : Order) (newStatus : OrderStatus) (now : ℕ) : Order :=
  if o.status = newStatus then o else o.UpdateStatus newStatus now

/-- services/trading_strategy.go `manageOpenOrders`: list the currently
open exchange orders and, for each one with a local record, apply
`applyStatusUpdate`; orders with no local record are skipped. Returns
`none` when the exchange listing fails (a Go error). BotState is not
touched. -/
def manageOpenOrders (env : ExchangeEnv) (now : ℕ) : Option (List Order) :=
  match env.listOpenOrders with
  | none => none
  | some openOrders =>
    some (openOrders.filterMap (fun openOrder =>
      match env.getOrder openOrder.binanceID with
      | none => none
      | some localOrder => some (applyStatusUpdate localOrder openOrder.status now)))

/-- Terminal outcome of one trading cycle. `ok` is the Go `return nil`;
`errNilState` and `errPriceFetch` are its two non-nil error returns;
`fatalSave` is `logger.Fatalf` (process termination via os.Exit) on a
failed BotState save. -/
inductive CycleResult where
  | errNilState
  | errPriceFetch
  | fatalSave (bs : BotState)
  | ok (bs : BotState)
deriving DecidableEq, Repr

/-- Full observable outcome of one cycle: the terminal result plus the
sub-step outcomes (initial-buy step if entered, sell reconciliation
steps, additional-buy step if entered). -/
structure CycleOutput where
  result : CycleResult
  initialBuy : Option BuyStepResult
  sellSteps : List SellStepResult
  additionalBuy : Option BuyStepResult

/-- services/trading_strategy.go `ExecuteTradingCycle`: nil state is a
returned error; a fresh state (id 0) is replaced by `NewBotState`;
balance-refresh failures fall back to 0 and do not abort; a price-fetch
failure is the only other returned error; initial buys run only while the
completion flag is false; sell reconciliation, the open-order sweep and
additional buys have their errors logged and dropped; finally the state
is saved (`SaveBotState` stamps the last-run timestamp first), a save
failure being fatal for the process. -/
def ExecuteTradingCycle (env : ExchangeEnv) (cfg : Config) (now : ℕ)
    (botState? : Option BotState) : CycleOutput :=
  match botState? with
  | none => ⟨.errNilState, none, [], none⟩
  | some botState0 =>
    let botState1 := if botState0.id = 0 then NewBotState cfg.initialUSDT now else botState0
    let usdtBal := env.getUSDTBalance.getD 0
    let btcBal := env.getBTCBalance.getD 0
    let botState2 := botState1.UpdateBalances usdtBal btcBal now
    match env.getCurrentPrice with
    | none => ⟨.errPriceFetch, none, [], none⟩
    | some currentPrice =>
      let initialBuy : Option BuyStepResult :=
        if botState2.isInitialBuyingComplete then none
        else some (placeInitialBuyOrders env cfg now currentPrice botState2)
      let botState3 := match initialBuy with
        | some r => r.botState
        | none => botState2
      let sellOut := checkAndPlaceSellOrders env cfg now botState3
      let botState4 := sellOut.1
      let _sweep := manageOpenOrders env now
      let additionalBuy : Option BuyStepResult :=
        if botState4.isInitialBuyingComplete
            && decide (cfg.orderAmount ≤ botState4.currentUSDTBalance) then
          some (placeAdditionalBuyOrders env cfg now currentPrice botState4)
        else none
      let botState5 := match additionalBuy with
        | some r => r.botState
        | none => botState4
      let botState6 := botState5.UpdateLastBotRunTimestamp now
      if env.saveBotStateOk then
        ⟨.ok botState6, initialBuy, sellOut.2, additionalBuy⟩
      else
        ⟨.fatalSave botState6, initialBuy, sellOut.2, additionalBuy⟩

/-! Concrete fixtures used by witnesses and counterexamples. -/

/-- A configuration with the documented defaults: order amount 10, 1 %
initial-buy discount, 2 % sell-profit target. -/
def cfg0 : Config :=
  { initialUSDT := 100
    orderAmount := 10
    symbol := "BTCUSDT"
    initialBuyPercentage := 1
    orderIntervalMinutes := 2
    buyPercentages := [1, 2, 5, 10]
    sellProfitPercentage := 2
    maxOpenTrades := 5 }

/-- A FILLED buy order: price 100, quantity 0.01. -/
def buyOrder0 : Order :=
  { id := 1
    binanceID := 1
    symbol := "BTCUSDT"
    type := .BUY
    price := 100
    quantity := 1 / 100
    quoteQty := 1
    status := .FILLED
    isTest := true
    placedAt := 0
    executedAt := some 0
    lastUpdatedAt := 0 }

/-- A FILLED sell order: price 102, quantity 0.01. -/
def sellOrder0 : Order :=
  { id := 2
    binanceID := 2
    symbol := "BTCUSDT"
    type := .SELL
    price := 102
    quantity := 1 / 100
    quoteQty := 102 / 100
    status := .FILLED
    isTest := true
    placedAt := 0
    executedAt := some 0
    lastUpdatedAt := 0 }

/-- An OPEN trade whose sell order (id 2) is already attached. -/
def trade0 : Trade :=
  { id := 1
    buyOrderID := 1
    sellOrderID := some 2
    symbol := "BTCUSDT"
    buyPrice := 100
    buyQuantity := 1 / 100
    sellPriceTarget := 102
    actualSellPrice := none
    status := .OPEN
    profitUSDT := none
    openedAt := 0
    closedAt := none
    lastStatusUpdate := 0 }

/-- An OPEN trade with no sell order attached yet. -/
def tradeNoSell0 : Trade :=
  { trade0 with id := 2, sellOrderID := none }

/-- An oracle environment where every external call succeeds: the orders
table holds `buyOrder0` and `sellOrder0`, the trades table holds
`trade0`, and placements return a NEW order with Binance id 3 echoing the
requested side, price and quantity. -/
def env0 : ExchangeEnv :=
  { getUSDTBalance := some 100
    getBTCBalance := some 0
    getCurrentPrice := some 100
    placeLimitOrder := fun side price qty =>
      some
        { id := 3
          binanceID := 3
          symbol := "BTCUSDT"
          type := side
          price := price
          quantity := qty
          quoteQty := price * qty
          status := .NEW
          isTest := true
          placedAt := 0
          executedAt := none
          lastUpdatedAt := 0 }
    listOpenOrders := some []
    db := [trade0]
    getOrder := fun i => if i = 1 then some buyOrder0 else if i = 2 then some sellOrder0 else none
    saveBotStateOk := true }

/-! Case-analysis lemmas for the sell reconciliation step, one per
control-flow branch of `checkAndPlaceSellOrdersStep`. -/

/-- Branch: the buy order could not be fetched — the trade is skipped. -/
theorem checkStep_noBuyOrder {env : ExchangeEnv} {cfg : Config} {now : ℕ} {t : Trade}
    (hbo : env.getOrder t.buyOrderID = none) :
    checkAndPlaceSellOrdersStep env cfg now t = ⟨t, none, none, none⟩ := by
  simp [checkAndPlaceSellOrdersStep, hbo]

/-- Branch: the buy order is not FILLED — the trade is skipped. -/
theorem checkStep_buyNotFilled {env : ExchangeEnv} {cfg : Config} {now : ℕ} {t : Trade}
    {bo : Order} (hbo : env.getOrder t.buyOrderID = some bo)
    (hst : bo.status ≠ .FILLED) :
    checkAndPlaceSellOrdersStep env cfg now t = ⟨t, none, none, none⟩ := by
  simp [checkAndPlaceSellOrdersStep, hbo, hst]

/-- Branch: buy FILLED, no sell attached, placement failed — the request
was issued but the trade is unchanged. -/
theorem checkStep_placeFailed {env : ExchangeEnv} {cfg : Config} {now : ℕ} {t : Trade}
    {bo : Order} (hbo : env.getOrder t.buyOrderID = some bo)
    (hst : bo.status = .FILLED) (hsid : t.sellOrderID = none)
    (hpl : env.placeLimitOrder .SELL
      (CalculateSellPrice bo.price cfg.sellProfitPercentage) bo.quantity = none) :
    checkAndPlaceSellOrdersStep env cfg now t =
      ⟨t, some (.SELL, CalculateSellPrice bo.price cfg.sellProfitPercentage, bo.quantity),
        none, none⟩ := by
  simp [checkAndPlaceSellOrdersStep, hbo, hst, hsid, hpl]

/-- Branch: buy FILLED, no sell attached, placement succeeded — the new
sell order is attached to the trade. -/
theorem checkStep_placed {env : ExchangeEnv} {cfg : Config} {now : ℕ} {t : Trade}
    {bo so : Order} (hbo : env.getOrder t.buyOrderID = some bo)
    (hst : bo.status = .FILLED) (hsid : t.sellOrderID = none)
    (hpl : env.placeLimitOrder .SELL
      (CalculateSellPrice bo.price cfg.sellProfitPercentage) bo.quantity = some so) :
    checkAndPlaceSellOrdersStep env cfg now t =
      ⟨t.SetSellOrder so.binanceID,
        some (.SELL, CalculateSellPrice bo.price cfg.sellProfitPercentage, bo.quantity),
        some so, none⟩ := by
  simp [checkAndPlaceSellOrdersStep, hbo, hst, hsid, hpl]

/-- Branch: buy FILLED, sell attached but not fetchable — skipped. -/
theorem checkStep_noSellOrder {env : ExchangeEnv} {cfg : Config} {now : ℕ} {t : Trade}
    {bo : Order} {sid : Int} (hbo : env.getOrder t.buyOrderID = some bo)
    (hst : bo.status = .FILLED) (hsid : t.sellOrderID = some sid)
    (hso : env.getOrder sid = none) :
    checkAndPlaceSellOrdersStep env cfg now t = ⟨t, none, none, none⟩ := by
  simp [checkAndPlaceSellOrdersStep, hbo, hst, hsid, hso]

/-- Branch: buy FILLED, sell attached and fetched but not FILLED —
skipped. -/
theorem checkStep_sellNotFilled {env : ExchangeEnv} {cfg : Config} {now : ℕ} {t : Trade}
    {bo so : Order} {sid : Int} (hbo : env.getOrder t.buyOrderID = some bo)
    (hst : bo.status = .FILLED) (hsid : t.sellOrderID = some sid)
    (hso : env.getOrder sid = some so) (hsf : so.status ≠ .FILLED) :
    checkAndPlaceSellOrdersStep env cfg now t = ⟨t, none, none, none⟩ := by
  simp [checkAndPlaceSellOrdersStep, hbo, hst, hsid, hso, hsf]

/-- Branch: buy FILLED, sell attached and FILLED — the trade is marked
SOLD at the sell order's price and its profit is folded into BotState. -/
theorem checkStep_sellFilled {env : ExchangeEnv} {cfg : Config} {now : ℕ} {t : Trade}
    {bo so : Order} {sid : Int} (hbo : env.getOrder t.buyOrderID = some bo)
    (hst : bo.status = .FILLED) (hsid : t.sellOrderID = some sid)
    (hso : env.getOrder sid = some so) (hsf : so.status = .FILLED) :
    checkAndPlaceSellOrdersStep env cfg now t =
      ⟨t.MarkAsSold so.price now, none, none,
        some ((so.price - t.buyPrice) * t.buyQuantity)⟩ := by
  simp [checkAndPlaceSellOrdersStep, hbo, hst, hsid, hso, hsf, Trade.MarkAsSold]

/-- Every run of the step falls into exactly one of the seven branches;
stated as: the step either leaves the trade unchanged with no request, or
issues a sell request, or marks the trade SOLD. -/
theorem checkStep_exhaustive (env : ExchangeEnv) (cfg : Config) (now : ℕ) (t : Trade) :
    checkAndPlaceSellOrdersStep env cfg now t = ⟨t, none, none, none⟩ ∨
    (∃ bo : Order, env.getOrder t.buyOrderID = some bo ∧ bo.status = .FILLED ∧
      t.sellOrderID = none) ∨
    (∃ bo so : Order, ∃ sid : Int, env.getOrder t.buyOrderID = some bo ∧
      bo.status = .FILLED ∧ t.sellOrderID = some sid ∧ env.getOrder sid = some so ∧
      so.status = .FILLED ∧
      checkAndPlaceSellOrdersStep env cfg now t =
        ⟨t.MarkAsSold so.price now, none, none,
          some ((so.price - t.buyPrice) * t.buyQuantity)⟩) := by
  rcases hbo : env.getOrder t.buyOrderID with _ | bo
  · exact Or.inl (checkStep_noBuyOrder hbo)
  · by_cases hst : bo.status = .FILLED
    · rcases hsid : t.sellOrderID with _ | sid
      · exact Or.inr (Or.inl ⟨bo, rfl, hst, rfl⟩)
      · rcases hso : env.getOrder sid with _ | so
        · exact Or.inl (checkStep_noSellOrder hbo hst hsid hso)
        · by_cases hsf : so.status = .FILLED
          · exact Or.inr (Or.inr ⟨bo, so, sid, rfl, hst, rfl, hso, hsf,
              checkStep_sellFilled hbo hst hsid hso hsf⟩)
          · exact Or.inl (checkStep_sellNotFilled hbo hst hsid hso hsf)
    · exact Or.inl (checkStep_buyNotFilled hbo hst)

/-! ## C5 — buy limit price and quantity -/

/-- C5 counterexample: the claim "for every current price p and
percentage q, the computed buy limit price equals p × (1 − q/100)" fails
at p = 100, q = −1: `CalculateBuyPrice` first replaces a negative
percentage by its absolute value, returning 99 where the claimed formula
gives 101. -/
theorem C5_counterexample :
    CalculateBuyPrice 100 (-1) ≠ 100 * (1 - (-1) / 100) := by
  unfold CalculateBuyPrice
  norm_num

/-- C5 amended: for every current price p and nonnegative percentage q
the computed buy limit price equals p × (1 − q/100) (for negative q the
code uses the absolute value, giving p × (1 + q/100)); whenever
`placeInitialBuyOrders` issues a placement request, the request is a BUY
at `CalculateBuyPrice currentPrice initialBuyPercentage` with quantity
`orderAmount / buyPrice`; and with current price 100 and
InitialBuyPercentage = 1.0 the computed buy limit price is exactly 99.0. -/
theorem C5_buy_price_formula :
    (∀ p q : ℚ, 0 ≤ q → CalculateBuyPrice p q = p * (1 - q / 100)) ∧
    (∀ p q : ℚ, q < 0 → CalculateBuyPrice p q = p * (1 + q / 100)) ∧
    (∀ env cfg now currentPrice bs r,
      (placeInitialBuyOrders env cfg now currentPrice bs).buyRequest = some r →
      r = (.BUY, CalculateBuyPrice currentPrice cfg.initialBuyPercentage,
        cfg.orderAmount / CalculateBuyPrice currentPrice cfg.initialBuyPercentage)) ∧
    CalculateBuyPrice 100 1 = 99 := by
  refine ⟨?_, ?_, ?_, by unfold CalculateBuyPrice; norm_num⟩
  · intro p q hq
    unfold CalculateBuyPrice
    simp [not_lt.mpr hq]
  · intro p q hq
    unfold CalculateBuyPrice
    simp only [if_pos hq]
    ring
  · intro env cfg now currentPrice bs r h
    unfold placeInitialBuyOrders at h
    split at h
    · simp at h
    · split at h
      · simp at h
      · split at h
        · simp at h
        · rcases hpl : env.placeLimitOrder .BUY
              (CalculateBuyPrice currentPrice cfg.initialBuyPercentage)
              (cfg.orderAmount / CalculateBuyPrice currentPrice cfg.initialBuyPercentage)
            with _ | order <;> simp only [hpl] at h <;> simpa using h.symm

/-- C5 witness: the amended theorem applied at concrete inputs: the
formula at p = 200, q = 1, and the identity at the spec's example. -/
theorem C5_witness :
    CalculateBuyPrice 200 1 = 200 * (1 - (1 : ℚ) / 100) ∧ CalculateBuyPrice 100 1 = 99 :=
  ⟨C5_buy_price_formula.1 200 1 (by norm_num), C5_buy_price_formula.2.2.2⟩

/-! ## C6 — realized profit formula -/

/-- C6: the profit stored by `MarkAsSold` is exactly
(actual sell price − buy price) × buy quantity; a trade whose stored
status is SOLD is never among the OPEN trades the reconciliation
processes (so the profit is not recomputed after the SOLD transition
persists); the reconciliation step changes a trade's stored profit only
when it marks the trade SOLD; and with sell price 102, buy price 100 and
quantity 0.01 the profit is exactly 0.02. -/
theorem C6_profit_formula :
    (∀ (t : Trade) (s : ℚ) (now : ℕ),
      (t.MarkAsSold s now).profitUSDT = some ((s - t.buyPrice) * t.buyQuantity)) ∧
    (∀ (db : List Trade) (t : Trade), t.status = .SOLD → t ∉ GetOpenTrades db) ∧
    (∀ env cfg now t,
      (checkAndPlaceSellOrdersStep env cfg now t).trade.profitUSDT ≠ t.profitUSDT →
      (checkAndPlaceSellOrdersStep env cfg now t).trade.status = .SOLD) ∧
    (trade0.MarkAsSold 102 0).profitUSDT = some (2 / 100) := by
  refine ⟨fun t s now => rfl, ?_, ?_, by simp [Trade.MarkAsSold, trade0]; norm_num⟩
  · intro db t hs hmem
    have := List.of_mem_filter (by exact hmem)
    simp [hs] at this
  · intro env cfg now t h
    rcases checkStep_exhaustive env cfg now t with hcase | hcase | hcase
    · rw [hcase] at h
      exact absurd rfl h
    · obtain ⟨bo, hbo, hst, hsid⟩ := hcase
      rcases hpl : env.placeLimitOrder .SELL
          (CalculateSellPrice bo.price cfg.sellProfitPercentage) bo.quantity with _ | so
      · rw [checkStep_placeFailed hbo hst hsid hpl] at h
        exact absurd rfl h
      · rw [checkStep_placed hbo hst hsid hpl] at h
        simp [Trade.SetSellOrder] at h
    · obtain ⟨bo, so, sid, hbo, hst, hsid, hso, hsf, hres⟩ := hcase
      rw [hres]
      rfl

/-- C6 witness: the profit formula applied to the concrete trade
`trade0` (buy price 100, quantity 0.01) sold at 102, the SOLD-exclusion
fact at a concrete database, and the concrete 0.02 value. -/
theorem C6_witness :
    (trade0.MarkAsSold 102 0).profitUSDT = some ((102 - trade0.buyPrice) * trade0.buyQuantity) ∧
    (trade0.MarkAsSold 102 0) ∉ GetOpenTrades [trade0.MarkAsSold 102 0] ∧
    (trade0.MarkAsSold 102 0).profitUSDT = some (2 / 100) :=
  ⟨C6_profit_formula.1 trade0 102 0,
    C6_profit_formula.2.1 _ _ (by decide),
    C6_profit_formula.2.2.2⟩

/-! ## C7 — order status update -/

/-- C7: the per-order status update of the open-order sweep
(`applyStatusUpdate`, the guarded call to `Order.UpdateStatus` in
`manageOpenOrders`) is a no-op when the new status equals the stored one;
otherwise it overwrites the status, sets the execution timestamp when
entering FILLED or PARTIALLY_FILLED and clears it when entering CANCELED,
REJECTED or EXPIRED; and it never rejects a transition: the resulting
status is always the requested one. -/
theorem C7_applyStatusUpdate_spec :
    (∀ (o : Order) (s : OrderStatus) (now : ℕ), o.status = s → applyStatusUpdate o s now = o) ∧
    (∀ (o : Order) (s : OrderStatus) (now : ℕ), o.status ≠ s →
      (applyStatusUpdate o s now).status = s ∧
      ((s = .FILLED ∨ s = .PARTIALLY_FILLED) →
        (applyStatusUpdate o s now).executedAt = some now) ∧
      ((s = .CANCELED ∨ s = .REJECTED ∨ s = .EXPIRED) →
        (applyStatusUpdate o s now).executedAt = none)) ∧
    (∀ (o : Order) (s : OrderStatus) (now : ℕ), (applyStatusUpdate o s now).status = s) := by
  refine ⟨fun o s now h => by simp [applyStatusUpdate, h], ?_, ?_⟩
  · intro o s now h
    refine ⟨?_, ?_, ?_⟩
    · simp only [applyStatusUpdate, if_neg h]
      unfold Order.UpdateStatus
      split
      · rfl
      · split <;> rfl
    · rintro (rfl | rfl) <;> simp [applyStatusUpdate, if_neg h, Order.UpdateStatus]
    · rintro (rfl | rfl | rfl) <;> simp [applyStatusUpdate, if_neg h, Order.UpdateStatus]
  · intro o s now
    by_cases h : o.status = s
    · simp [applyStatusUpdate, h]
    · simp only [applyStatusUpdate, if_neg h]
      unfold Order.UpdateStatus
      split
      · rfl
      · split <;> rfl

/-- C7 witness: the update applied at concrete orders: a same-status call
on `buyOrder0` is the identity, and moving `buyOrder0` (FILLED) to
CANCELED at tick 5 clears the execution timestamp. -/
theorem C7_witness :
    applyStatusUpdate buyOrder0 .FILLED 5 = buyOrder0 ∧
    (applyStatusUpdate buyOrder0 .CANCELED 5).executedAt = none :=
  ⟨C7_applyStatusUpdate_spec.1 buyOrder0 .FILLED 5 (by decide),
    (C7_applyStatusUpdate_spec.2.1 buyOrder0 .CANCELED 5 (by decide)).2.2 (by left; rfl)⟩

/-! ## C1 — sell-order attachment -/

/-- C1 counterexample: `Trade.SetSellOrder` has no already-attached
guard. For `trade0`, whose sell_order_id is already set (to 2), a further
call with id 7 changes sell_order_id to 7 — refuting "a further call to
attachSell does not change sell_order_id". -/
theorem C1_counterexample :
    (trade0.SetSellOrder 7).sellOrderID ≠ trade0.sellOrderID := by
  decide

/-- C1 amended: `Trade.SetSellOrder` unconditionally overwrites
sell_order_id (there is no absent-only guard and no AlreadyAttachedError
in the source), so sell_order_id is not set at most once at the method
level; however, the sell-side reconciliation calls it only when
sell_order_id is nil, so for a trade whose sell_order_id is already set
the reconciliation step issues no sell placement — no duplicate sell
order is placed for that trade. -/
theorem C1_attachSell_amended :
    (∀ (t : Trade) (sid : Int), (t.SetSellOrder sid).sellOrderID = some sid) ∧
    (∀ (env : ExchangeEnv) (cfg : Config) (now : ℕ) (t : Trade),
      t.sellOrderID ≠ none →
      (checkAndPlaceSellOrdersStep env cfg now t).sellRequest = none ∧
      (checkAndPlaceSellOrdersStep env cfg now t).placedSellOrder = none) := by
  refine ⟨fun t sid => rfl, ?_⟩
  intro env cfg now t hattached
  rcases hs : t.sellOrderID with _ | sid
  · exact absurd hs hattached
  · rcases hbo : env.getOrder t.buyOrderID with _ | bo
    · rw [checkStep_noBuyOrder hbo]; exact ⟨rfl, rfl⟩
    · by_cases hst : bo.status = .FILLED
      · rcases hso : env.getOrder sid with _ | so
        · rw [checkStep_noSellOrder hbo hst hs hso]; exact ⟨rfl, rfl⟩
        · by_cases hsf : so.status = .FILLED
          · rw [checkStep_sellFilled hbo hst hs hso hsf]; exact ⟨rfl, rfl⟩
          · rw [checkStep_sellNotFilled hbo hst hs hso hsf]; exact ⟨rfl, rfl⟩
      · rw [checkStep_buyNotFilled hbo hst]; exact ⟨rfl, rfl⟩

/-- C1 witness: the amended theorem at `trade0` (sell order 2 already
attached) in `env0`: overwriting to 7 stores 7, and the reconciliation
step issues no placement for the attached trade. -/
theorem C1_witness :
    (trade0.SetSellOrder 7).sellOrderID = some 7 ∧
    (checkAndPlaceSellOrdersStep env0 cfg0 0 trade0).sellRequest = none ∧
    (checkAndPlaceSellOrdersStep env0 cfg0 0 trade0).placedSellOrder = none :=
  ⟨C1_attachSell_amended.1 trade0 7,
    C1_attachSell_amended.2 env0 cfg0 0 trade0 (by decide)⟩

/-! ## C2 — closing a trade as SOLD -/

/-- C2 counterexample: `Trade.MarkAsSold` is not a guarded no-op. First,
on `trade0` already SOLD at price 102 (profit 0.02), calling MarkAsSold
again with price 200 changes the stored profit — refuting "calling it
again after SOLD is a no-op returning the already-computed profit".
Second, when the SOLD update fails to persist (the stored trade stays
OPEN, as after a failed UpdateTrade), re-running the reconciliation over
the same stored trade folds the same trade's profit into BotState a
second time: cumulative profit reaches 0.04 for a single 0.02 trade —
refuting "BotState's cumulative profit is not incremented a second time
for the same trade". -/
theorem C2_counterexample :
    ((trade0.MarkAsSold 102 0).MarkAsSold 200 0).profitUSDT ≠
      (trade0.MarkAsSold 102 0).profitUSDT ∧
    ((checkAndPlaceSellOrders env0 cfg0 0
      ((checkAndPlaceSellOrders env0 cfg0 0 (NewBotState 100 0)).1)).1).totalUSDTProfit
      = 4 / 100 := by
  constructor
  · simp only [Trade.MarkAsSold, trade0, ne_eq, Option.some.injEq]
    norm_num
  · have h1 : GetOpenTrades env0.db = [trade0] := by
      simp [GetOpenTrades, GetTradesByStatus, env0, trade0]
    have hstep : checkAndPlaceSellOrdersStep env0 cfg0 0 trade0 =
        ⟨trade0.MarkAsSold sellOrder0.price 0, none, none,
          some ((sellOrder0.price - trade0.buyPrice) * trade0.buyQuantity)⟩ :=
      @checkStep_sellFilled env0 cfg0 0 trade0 buyOrder0 sellOrder0 2 rfl rfl rfl rfl rfl
    have h2 : ∀ bs : BotState, (checkAndPlaceSellOrders env0 cfg0 0 bs).1 =
        bs.UpdateInvestedAndProfit 0
          ((sellOrder0.price - trade0.buyPrice) * trade0.buyQuantity) 0 := by
      intro bs
      simp [checkAndPlaceSellOrders, h1, hstep]
    rw [h2, h2]
    simp only [BotState.UpdateInvestedAndProfit, NewBotState, sellOrder0, trade0]
    norm_num

/-- C2 amended: `Trade.MarkAsSold` unconditionally recomputes; it is
idempotent only for identical inputs — re-calling it with the same sell
price and timestamp leaves the trade (hence the stored profit) unchanged.
BotState's cumulative profit is protected from double counting only by
the trade leaving OPEN status: a trade stored as SOLD is never among the
OPEN trades the reconciliation processes, so once the SOLD update
persists its profit is not folded in again. -/
theorem C2_markAsSold_amended :
    (∀ (t : Trade) (s : ℚ) (now : ℕ),
      (t.MarkAsSold s now).MarkAsSold s now = t.MarkAsSold s now) ∧
    (∀ (db : List Trade) (t : Trade), t.status = .SOLD → t ∉ GetOpenTrades db) := by
  constructor
  · intro t s now
    simp [Trade.MarkAsSold]
  · intro db t hs hmem
    have := List.of_mem_filter (by exact hmem)
    simp [hs] at this

/-- C2 witness: the amended theorem at `trade0` sold at 102: re-marking
with the same inputs is the identity, and the SOLD trade is excluded
from a database's OPEN trades. -/
theorem C2_witness :
    (trade0.MarkAsSold 102 0).MarkAsSold 102 0 = trade0.MarkAsSold 102 0 ∧
    trade0.MarkAsSold 102 0 ∉ GetOpenTrades [trade0.MarkAsSold 102 0, tradeNoSell0] :=
  ⟨C2_markAsSold_amended.1 trade0 102 0,
    C2_markAsSold_amended.2 [trade0.MarkAsSold 102 0, tradeNoSell0]
      (trade0.MarkAsSold 102 0) (by decide)⟩

/-! ## C3 — SOLD only after sell FILLED, placement only after buy FILLED -/

/-- C3: in the sell-side reconciliation step, a trade that was not
already SOLD comes out SOLD only when its attached sell order was fetched
with status FILLED; and the step issues a sell placement only when the
linked buy order was fetched with status FILLED. Since this step is the
only place the engine sets a trade SOLD or places a sell order, this
holds of every reachable execution. -/
theorem C3_sold_only_after_sell_filled :
    (∀ (env : ExchangeEnv) (cfg : Config) (now : ℕ) (t : Trade),
      t.status ≠ .SOLD →
      (checkAndPlaceSellOrdersStep env cfg now t).trade.status = .SOLD →
      ∃ (sid : Int) (so : Order), t.sellOrderID = some sid ∧
        env.getOrder sid = some so ∧ so.status = .FILLED) ∧
    (∀ (env : ExchangeEnv) (cfg : Config) (now : ℕ) (t : Trade),
      (checkAndPlaceSellOrdersStep env cfg now t).sellRequest ≠ none →
      ∃ bo : Order, env.getOrder t.buyOrderID = some bo ∧ bo.status = .FILLED) := by
  constructor
  · intro env cfg now t hns hsold
    rcases hbo : env.getOrder t.buyOrderID with _ | bo
    · rw [checkStep_noBuyOrder hbo] at hsold
      exact absurd hsold hns
    · by_cases hst : bo.status = .FILLED
      · rcases hsid : t.sellOrderID with _ | sid
        · rcases hpl : env.placeLimitOrder .SELL
              (CalculateSellPrice bo.price cfg.sellProfitPercentage) bo.quantity
            with _ | so
          · rw [checkStep_placeFailed hbo hst hsid hpl] at hsold
            exact absurd hsold hns
          · rw [checkStep_placed hbo hst hsid hpl] at hsold
            exact absurd (by simpa [Trade.SetSellOrder] using hsold) hns
        · rcases hso : env.getOrder sid with _ | so
          · rw [checkStep_noSellOrder hbo hst hsid hso] at hsold
            exact absurd hsold hns
          · by_cases hsf : so.status = .FILLED
            · exact ⟨sid, so, rfl, hso, hsf⟩
            · rw [checkStep_sellNotFilled hbo hst hsid hso hsf] at hsold
              exact absurd hsold hns
      · rw [checkStep_buyNotFilled hbo hst] at hsold
        exact absurd hsold hns
  · intro env cfg now t hreq
    rcases hbo : env.getOrder t.buyOrderID with _ | bo
    · rw [checkStep_noBuyOrder hbo] at hreq
      exact absurd rfl hreq
    · by_cases hst : bo.status = .FILLED
      · exact ⟨bo, rfl, hst⟩
      · rw [checkStep_buyNotFilled hbo hst] at hreq
        exact absurd rfl hreq

/-- C3 witness: the theorem at `env0`: the OPEN trade `trade0` comes out
SOLD and indeed its attached sell order 2 is FILLED; the unattached trade
`tradeNoSell0` triggers a placement and indeed its buy order is FILLED. -/
theorem C3_witness :
    (∃ (sid : Int) (so : Order), trade0.sellOrderID = some sid ∧
      env0.getOrder sid = some so ∧ so.status = .FILLED) ∧
    (∃ bo : Order, env0.getOrder tradeNoSell0.buyOrderID = some bo ∧
      bo.status = .FILLED) :=
  ⟨C3_sold_only_after_sell_filled.1 env0 cfg0 0 trade0 (by decide) (by decide),
    C3_sold_only_after_sell_filled.2 env0 cfg0 0 tradeNoSell0 (by decide)⟩

/-! ## C4 — initial-buy count monotone, completion flag permanent -/

/-- A bot state past the initial phase: 10 initial buys placed,
completion flag set, persisted (id 1), with a large balance. -/
def bsComplete : BotState :=
  { NewBotState 100 0 with
    id := 1
    currentUSDTBalance := 1000
    initialBuyOrdersPlacedCount := 10
    isInitialBuyingComplete := true }

/-- C4: across every BotState method, the initial-buy counter never
decreases and the completion flag, once true, stays true; once the
counter is at least 10, `placeInitialBuyOrders` issues no placement and
(re)asserts the completion flag; the increment that brings the counter to
10 sets the flag; and a cycle run on a persisted state whose flag is true
never enters initial-buy placement, whatever the balances are. -/
theorem C4_initial_buy_monotone_permanent :
    (∀ (bs : BotState) (now : ℕ) (op : BotStateOp),
      bs.initialBuyOrdersPlacedCount ≤ (bs.applyOp now op).initialBuyOrdersPlacedCount) ∧
    (∀ (bs : BotState) (now : ℕ) (op : BotStateOp),
      bs.isInitialBuyingComplete = true →
      (bs.applyOp now op).isInitialBuyingComplete = true) ∧
    (∀ (env : ExchangeEnv) (cfg : Config) (now : ℕ) (currentPrice : ℚ) (bs : BotState),
      10 ≤ bs.initialBuyOrdersPlacedCount →
      (placeInitialBuyOrders env cfg now currentPrice bs).buyRequest = none ∧
      (placeInitialBuyOrders env cfg now currentPrice bs).placedOrder = none ∧
      (placeInitialBuyOrders env cfg now currentPrice bs).botState.isInitialBuyingComplete
        = true) ∧
    (∀ (bs : BotState) (now : ℕ),
      10 ≤ (bs.IncrementInitialBuyOrdersCount now).initialBuyOrdersPlacedCount →
      (bs.IncrementInitialBuyOrdersCount now).isInitialBuyingComplete = true) ∧
    (∀ (env : ExchangeEnv) (cfg : Config) (now : ℕ) (bs : BotState),
      bs.isInitialBuyingComplete = true → bs.id ≠ 0 →
      (ExecuteTradingCycle env cfg now (some bs)).initialBuy = none) := by
  refine ⟨?_, ?_, ?_, ?_, ?_⟩
  · intro bs now op
    cases op <;>
      simp [BotState.applyOp, BotState.UpdateBalances,
        BotState.IncrementInitialBuyOrdersCount, BotState.UpdateInvestedAndProfit,
        BotState.SetInitialBuyingComplete, BotState.UpdateLastBotRunTimestamp]
  · intro bs now op hflag
    cases op <;>
      simp [BotState.applyOp, BotState.UpdateBalances,
        BotState.IncrementInitialBuyOrdersCount, BotState.UpdateInvestedAndProfit,
        BotState.SetInitialBuyingComplete, BotState.UpdateLastBotRunTimestamp, hflag]
  · intro env cfg now currentPrice bs hcount
    unfold placeInitialBuyOrders
    rw [if_pos hcount]
    exact ⟨rfl, rfl, rfl⟩
  · intro bs now hcount
    unfold BotState.IncrementInitialBuyOrdersCount at hcount ⊢
    simp only at hcount
    simp [if_pos hcount]
  · intro env cfg now bs hflag hid
    unfold ExecuteTradingCycle
    rcases hp : env.getCurrentPrice with _ | p <;>
      by_cases hsv : env.saveBotStateOk <;>
        simp [hp, hsv, hid, hflag, BotState.UpdateBalances]

/-- C4 witness: at `bsComplete` (count 10, flag true, balance 1000): no
placement is issued, the flag stays true, the flag survives a balance
update, and a full cycle in `env0` skips initial buying. -/
theorem C4_witness :
    (placeInitialBuyOrders env0 cfg0 0 100 bsComplete).buyRequest = none ∧
    (placeInitialBuyOrders env0 cfg0 0 100 bsComplete).botState.isInitialBuyingComplete
      = true ∧
    (bsComplete.applyOp 1 (.updateBalances 5000 0)).isInitialBuyingComplete = true ∧
    (ExecuteTradingCycle env0 cfg0 0 (some bsComplete)).initialBuy = none :=
  ⟨(C4_initial_buy_monotone_permanent.2.2.1 env0 cfg0 0 100 bsComplete (by decide)).1,
    (C4_initial_buy_monotone_permanent.2.2.1 env0 cfg0 0 100 bsComplete (by decide)).2.2,
    C4_initial_buy_monotone_permanent.2.1 bsComplete 1 (.updateBalances 5000 0) (by decide),
    C4_initial_buy_monotone_permanent.2.2.2.2 env0 cfg0 0 bsComplete (by decide) (by decide)⟩

/-! ## C8 — sell-side reconciliation behaviour per OPEN trade -/

/-- C8: processing an OPEN trade, the reconciliation step (1) skips the
trade unchanged, placing nothing, when the re-fetched buy order is not
FILLED; and (2) when the buy order is FILLED and no sell order is
attached, issues a sell placement at
`buyPrice × (1 + sellProfitPercentage/100)` (the configured percentage
being nonnegative, as config validation enforces) for the full bought
quantity, and on success attaches the returned order's id to the trade. -/
theorem C8_sell_reconciliation :
    (∀ (env : ExchangeEnv) (cfg : Config) (now : ℕ) (t : Trade) (bo : Order),
      env.getOrder t.buyOrderID = some bo → bo.status ≠ .FILLED →
      checkAndPlaceSellOrdersStep env cfg now t = ⟨t, none, none, none⟩) ∧
    (∀ (env : ExchangeEnv) (cfg : Config) (now : ℕ) (t : Trade) (bo : Order),
      0 ≤ cfg.sellProfitPercentage →
      env.getOrder t.buyOrderID = some bo → bo.status = .FILLED →
      t.sellOrderID = none →
      (checkAndPlaceSellOrdersStep env cfg now t).sellRequest =
        some (.SELL, bo.price * (1 + cfg.sellProfitPercentage / 100), bo.quantity) ∧
      (∀ so : Order,
        env.placeLimitOrder .SELL
          (CalculateSellPrice bo.price cfg.sellProfitPercentage) bo.quantity = some so →
        (checkAndPlaceSellOrdersStep env cfg now t).trade.sellOrderID
          = some so.binanceID)) := by
  constructor
  · intro env cfg now t bo hbo hst
    exact checkStep_buyNotFilled hbo hst
  · intro env cfg now t bo hpct hbo hst hsid
    have hprice : CalculateSellPrice bo.price cfg.sellProfitPercentage =
        bo.price * (1 + cfg.sellProfitPercentage / 100) := by
      simp [CalculateSellPrice, not_lt.mpr hpct]
    constructor
    · rcases hpl : env.placeLimitOrder .SELL
          (CalculateSellPrice bo.price cfg.sellProfitPercentage) bo.quantity
        with _ | so
      · rw [checkStep_placeFailed hbo hst hsid hpl, hprice]
      · rw [checkStep_placed hbo hst hsid hpl, hprice]
    · intro so hpl
      rw [checkStep_placed hbo hst hsid hpl]
      rfl

/-- C8 witness: in `env0`, the unattached OPEN trade `tradeNoSell0`
(buy order FILLED at 100, quantity 0.01, sell-profit 2 %) triggers a sell
request at 100 × 1.02 for 0.01 and the returned order (id 3) is attached. -/
theorem C8_witness :
    (checkAndPlaceSellOrdersStep env0 cfg0 0 tradeNoSell0).sellRequest =
      some (.SELL, buyOrder0.price * (1 + cfg0.sellProfitPercentage / 100),
        buyOrder0.quantity) ∧
    (checkAndPlaceSellOrdersStep env0 cfg0 0 tradeNoSell0).trade.sellOrderID = some 3 := by
  have h := C8_sell_reconciliation.2 env0 cfg0 0 tradeNoSell0 buyOrder0
    (by norm_num [cfg0]) rfl rfl rfl
  exact ⟨h.1, h.2 _ rfl⟩

/-! ## C9 — failed BotState save is fatal -/

/-- An environment in which saving BotState fails. -/
def envSaveFail : ExchangeEnv := { env0 with saveBotStateOk := false }

/-- C9: whenever a cycle gets past the price fetch and the final
BotState save fails, the cycle ends in `fatalSave` — the embedding of
`logger.Fatalf` / os.Exit — rather than in a normal or error return: the
process terminates. -/
theorem C9_save_failure_fatal :
    ∀ (env : ExchangeEnv) (cfg : Config) (now : ℕ) (bs : BotState) (p : ℚ),
      env.getCurrentPrice = some p → env.saveBotStateOk = false →
      ∃ bs2, (ExecuteTradingCycle env cfg now (some bs)).result = .fatalSave bs2 := by
  intro env cfg now bs p hp hsv
  unfold ExecuteTradingCycle
  simp only [hp, hsv, Bool.false_eq_true, if_false]
  exact ⟨_, rfl⟩

/-- C9 witness: the theorem at `envSaveFail`, a fresh state and price
100: the cycle ends in `fatalSave`. -/
theorem C9_witness :
    ∃ bs2, (ExecuteTradingCycle envSaveFail cfg0 0 (some (NewBotState 100 0))).result
      = .fatalSave bs2 :=
  C9_save_failure_fatal envSaveFail cfg0 0 (NewBotState 100 0) 100 rfl rfl

/-! ## C10 — the cycle's only error returns -/

/-- An environment where every sub-step collaborator fails: balance
fetches, order placement, the open-order listing; only the price fetch
and the save succeed. -/
def envSubFail : ExchangeEnv :=
  { env0 with
    getUSDTBalance := none
    getBTCBalance := none
    placeLimitOrder := fun _ _ _ => none
    listOpenOrders := none }

/-- C10: `ExecuteTradingCycle` returns a non-nil error in exactly two
cases — the in-memory state is nil (`errNilState`) or the price fetch
fails (`errPriceFetch`); in every other situation, whatever the
balance-refresh, placement, reconciliation or sweep oracles do, the
cycle proceeds to the save and, when the save succeeds, returns nil
(`ok`). -/
theorem C10_cycle_error_cases :
    (∀ (env : ExchangeEnv) (cfg : Config) (now : ℕ),
      (ExecuteTradingCycle env cfg now none).result = .errNilState) ∧
    (∀ (env : ExchangeEnv) (cfg : Config) (now : ℕ) (bs : BotState),
      env.getCurrentPrice = none →
      (ExecuteTradingCycle env cfg now (some bs)).result = .errPriceFetch) ∧
    (∀ (env : ExchangeEnv) (cfg : Config) (now : ℕ) (bs : BotState) (p : ℚ),
      env.getCurrentPrice = some p → env.saveBotStateOk = true →
      ∃ bs2, (ExecuteTradingCycle env cfg now (some bs)).result = .ok bs2) := by
  refine ⟨fun env cfg now => rfl, ?_, ?_⟩
  · intro env cfg now bs hp
    unfold ExecuteTradingCycle
    simp only [hp]
  · intro env cfg now bs p hp hsv
    unfold ExecuteTradingCycle
    simp only [hp, hsv, if_true]
    exact ⟨_, rfl⟩

/-- C10 witness: with the nil state the cycle returns `errNilState`;
with a failed price fetch it returns `errPriceFetch`; and in
`envSubFail`, where balances, placements and the sweep all fail, it
still returns nil (`ok`). -/
theorem C10_witness :
    (ExecuteTradingCycle env0 cfg0 0 none).result = .errNilState ∧
    (ExecuteTradingCycle { env0 with getCurrentPrice := none } cfg0 0
      (some (NewBotState 100 0))).result = .errPriceFetch ∧
    ∃ bs2, (ExecuteTradingCycle envSubFail cfg0 0 (some (NewBotState 100 0))).result
      = .ok bs2 :=
  ⟨C10_cycle_error_cases.1 env0 cfg0 0,
    C10_cycle_error_cases.2.1 { env0 with getCurrentPrice := none } cfg0 0
      (NewBotState 100 0) rfl,
    C10_cycle_error_cases.2.2 envSubFail cfg0 0 (NewBotState 100 0) 100 rfl rfl⟩

end BinanceTraderBot
